import Mathlib

/-!
Shallow embedding of `wezterm-gui/src/termwindow/glow.rs`, the WebGPU glow
post-processing effect of this repository.

Modelling conventions:
* GPU objects (`wgpu` descriptors, pipelines, samplers, buffers, bind groups)
  are modelled as plain descriptor records carrying exactly the configuration
  the Rust code passes to the corresponding `wgpu` call.
* The `wgpu::Device` is modelled as a trace: each resource-creating call
  appends a `DeviceOp` to `Device.ops`; textures and texture views receive
  fresh numeric ids from `Device.nextId`.  Texture allocation may fail,
  governed by the oracle `Device.failTexture` (the Rust helpers return
  `anyhow::Result` and propagate allocation failures with `?`).
* `f32` configuration values are modelled as rationals; the spec requires all
  parameter fields to be finite, and the code only copies and compares them.
* `usize as u32` casts are modelled as `% 2 ^ 32`.
* Command recording (`wgpu::CommandEncoder`) is modelled by the list of
  `RecordedPass` values a call appends, each capturing the render-pass
  descriptor (attachment view, load/store ops) together with the pipeline,
  bind groups, vertex/index buffers and draw call issued inside the pass.
-/

set_option autoImplicit false

namespace WezGlow

/-- Subset of `wgpu::TextureFormat` relevant to this renderer and its callers. -/
inductive TextureFormat where
  | Rgba8UnormSrgb
  | Rgba8Unorm
  | Bgra8Unorm
  | Bgra8UnormSrgb
  | Rgba16Float
  deriving DecidableEq, Inhabited

/-- Texture usage flags (`wgpu::TextureUsages` bitflags as booleans). -/
structure TextureUsages where
  render_attachment : Bool
  texture_binding : Bool
  copy_src : Bool
  copy_dst : Bool
  deriving DecidableEq, Inhabited

/-- Texture dimensionality (`wgpu::TextureDimension`). -/
inductive TextureDimension where
  | D1
  | D2
  | D3
  deriving DecidableEq, Inhabited

/-- Texture extent (`wgpu::Extent3d`). -/
structure Extent3d where
  width : Nat
  height : Nat
  depth_or_array_layers : Nat
  deriving DecidableEq, Inhabited

/-- Texture creation descriptor (`wgpu::TextureDescriptor`). -/
structure TextureDescriptor where
  label : Option String
  size : Extent3d
  mip_level_count : Nat
  sample_count : Nat
  dimension : TextureDimension
  format : TextureFormat
  usage : TextureUsages
  view_formats : List TextureFormat
  deriving DecidableEq, Inhabited

/-- Sampler addressing mode (`wgpu::AddressMode`). -/
inductive AddressMode where
  | ClampToEdge
  | MirrorRepeat
  | RepeatMode
  deriving DecidableEq, Inhabited

/-- Sampler filtering mode (`wgpu::FilterMode`). -/
inductive FilterMode where
  | Nearest
  | Linear
  deriving DecidableEq, Inhabited

/-- Sampler creation descriptor (`wgpu::SamplerDescriptor`; the fields the
source leaves to `..Default::default()` are omitted). -/
structure SamplerDescriptor where
  address_mode_u : AddressMode
  address_mode_v : AddressMode
  address_mode_w : AddressMode
  mag_filter : FilterMode
  min_filter : FilterMode
  mipmap_filter : FilterMode
  deriving DecidableEq, Inhabited

/-- Shader stage visibility flags (`wgpu::ShaderStages`). -/
structure ShaderStages where
  vertex : Bool
  fragment : Bool
  compute : Bool
  deriving DecidableEq, Inhabited

/-- Fragment-stage-only visibility, `wgpu::ShaderStages::FRAGMENT`. -/
def ShaderStages.FRAGMENT : ShaderStages :=
  { vertex := false, fragment := true, compute := false }

/-- Buffer binding type (`wgpu::BufferBindingType`). -/
inductive BufferBindingType where
  | Uniform
  | Storage
  deriving DecidableEq, Inhabited

/-- Texture view dimensionality (`wgpu::TextureViewDimension`). -/
inductive TextureViewDimension where
  | D1
  | D2
  | D3
  | Cube
  deriving DecidableEq, Inhabited

/-- Sampled-texture scalar type (`wgpu::TextureSampleType`). -/
inductive TextureSampleType where
  | float (filterable : Bool)
  | depth
  | sint
  | uint
  deriving DecidableEq, Inhabited

/-- Sampler binding type (`wgpu::SamplerBindingType`). -/
inductive SamplerBindingType where
  | Filtering
  | NonFiltering
  | Comparison
  deriving DecidableEq, Inhabited

/-- Binding type of a bind group layout entry (`wgpu::BindingType`). -/
inductive BindingType where
  | buffer (ty : BufferBindingType) (has_dynamic_offset : Bool)
      (min_binding_size : Option Nat)
  | texture (multisampled : Bool) (view_dimension : TextureViewDimension)
      (sample_type : TextureSampleType)
  | sampler (ty : SamplerBindingType)
  deriving DecidableEq, Inhabited

/-- One entry of a bind group layout (`wgpu::BindGroupLayoutEntry`). -/
structure BindGroupLayoutEntry where
  binding : Nat
  visibility : ShaderStages
  ty : BindingType
  count : Option Nat
  deriving DecidableEq, Inhabited

/-- Bind group layout descriptor (`wgpu::BindGroupLayoutDescriptor`). -/
structure BindGroupLayoutDescriptor where
  label : Option String
  entries : List BindGroupLayoutEntry
  deriving DecidableEq, Inhabited

/-- Blend factor (`wgpu::BlendFactor`). -/
inductive BlendFactor where
  | Zero
  | One
  | SrcAlpha
  | OneMinusSrcAlpha
  deriving DecidableEq, Inhabited

/-- Blend operation (`wgpu::BlendOperation`). -/
inductive BlendOperation where
  | Add
  | Subtract
  | ReverseSubtract
  | Min
  | Max
  deriving DecidableEq, Inhabited

/-- Blend configuration for one channel group (`wgpu::BlendComponent`). -/
structure BlendComponent where
  src_factor : BlendFactor
  dst_factor : BlendFactor
  operation : BlendOperation
  deriving DecidableEq, Inhabited

/-- Blend state for colour and alpha channels (`wgpu::BlendState`). -/
structure BlendState where
  color : BlendComponent
  alpha : BlendComponent
  deriving DecidableEq, Inhabited

/-- Opaque replace blending, `wgpu::BlendState::REPLACE`
(source factor one, destination factor zero, operation add on both channels). -/
def BlendState.REPLACE : BlendState :=
  { color := { src_factor := .One, dst_factor := .Zero, operation := .Add }
    alpha := { src_factor := .One, dst_factor := .Zero, operation := .Add } }

/-- Colour write mask (`wgpu::ColorWrites` bitflags as booleans). -/
structure ColorWrites where
  r : Bool
  g : Bool
  b : Bool
  a : Bool
  deriving DecidableEq, Inhabited

/-- Full write mask, `wgpu::ColorWrites::ALL`. -/
def ColorWrites.ALL : ColorWrites :=
  { r := true, g := true, b := true, a := true }

/-- Primitive topology (`wgpu::PrimitiveTopology`). -/
inductive PrimitiveTopology where
  | PointList
  | LineList
  | LineStrip
  | TriangleList
  | TriangleStrip
  deriving DecidableEq, Inhabited

/-- Winding order of front faces (`wgpu::FrontFace`). -/
inductive FrontFace where
  | Ccw
  | Cw
  deriving DecidableEq, Inhabited

/-- Face selection for culling (`wgpu::Face`). -/
inductive Face where
  | Front
  | Back
  deriving DecidableEq, Inhabited

/-- Polygon rasterization mode (`wgpu::PolygonMode`). -/
inductive PolygonMode where
  | Fill
  | Line
  | Point
  deriving DecidableEq, Inhabited

/-- Index element format (`wgpu::IndexFormat`). -/
inductive IndexFormat where
  | Uint16
  | Uint32
  deriving DecidableEq, Inhabited

/-- Vertex buffer layout reference.  The single constructor stands for
`Vertex::desc()` of `crate::quad` (that module is outside the sources of this
component; only the reference to its layout appears here). -/
inductive VertexBufferLayout where
  | vertexDesc
  deriving DecidableEq, Inhabited

/-- Vertex shader stage description (`wgpu::VertexState`). -/
structure VertexState where
  module_label : String
  entry_point : Option String
  buffers : List VertexBufferLayout
  deriving DecidableEq, Inhabited

/-- One colour target of the fragment stage (`wgpu::ColorTargetState`). -/
structure ColorTargetState where
  format : TextureFormat
  blend : Option BlendState
  write_mask : ColorWrites
  deriving DecidableEq, Inhabited

/-- Fragment shader stage description (`wgpu::FragmentState`). -/
structure FragmentState where
  module_label : String
  entry_point : Option String
  targets : List (Option ColorTargetState)
  deriving DecidableEq, Inhabited

/-- Fixed-function primitive state (`wgpu::PrimitiveState`). -/
structure PrimitiveState where
  topology : PrimitiveTopology
  strip_index_format : Option IndexFormat
  front_face : FrontFace
  cull_mode : Option Face
  polygon_mode : PolygonMode
  unclipped_depth : Bool
  conservative : Bool
  deriving DecidableEq, Inhabited

/-- Multisampling state (`wgpu::MultisampleState`). -/
structure MultisampleState where
  count : Nat
  mask : Nat
  alpha_to_coverage_enabled : Bool
  deriving DecidableEq, Inhabited

/-- Pipeline layout descriptor (`wgpu::PipelineLayoutDescriptor`). -/
structure PipelineLayoutDescriptor where
  label : String
  bind_group_layouts : List BindGroupLayoutDescriptor
  deriving DecidableEq, Inhabited

/-- Render pipeline descriptor (`wgpu::RenderPipelineDescriptor`); the built
pipeline object is identified with its descriptor in this model. -/
structure RenderPipelineDescriptor where
  label : Option String
  layout : Option PipelineLayoutDescriptor
  vertex : VertexState
  fragment : Option FragmentState
  primitive : PrimitiveState
  depth_stencil : Option Unit
  multisample : MultisampleState
  multiview : Option Nat
  cache : Option Unit
  deriving DecidableEq, Inhabited

/-- Vertex record of `crate::quad::Vertex`, with the field layout the glow
code populates in `create_fullscreen_quad` (components as rationals). -/
structure Vertex where
  position : List Rat
  tex : List Rat
  fg_color : List Rat
  alt_color : List Rat
  hsv : List Rat
  has_color : Rat
  mix_value : Rat
  deriving DecidableEq, Inhabited

/-- Buffer usage flags (`wgpu::BufferUsages` bitflags as booleans). -/
structure BufferUsages where
  uniform : Bool
  vertex : Bool
  index : Bool
  deriving DecidableEq, Inhabited

/-- Uniform-only usage, `wgpu::BufferUsages::UNIFORM`. -/
def BufferUsages.UNIFORM : BufferUsages :=
  { uniform := true, vertex := false, index := false }

/-- Vertex-only usage, `wgpu::BufferUsages::VERTEX`. -/
def BufferUsages.VERTEX : BufferUsages :=
  { uniform := false, vertex := true, index := false }

/-- Index-only usage, `wgpu::BufferUsages::INDEX`. -/
def BufferUsages.INDEX : BufferUsages :=
  { uniform := false, vertex := false, index := true }

/-- Contents handed to `create_buffer_init` (the `bytemuck::cast_slice`
argument, at the granularity of the element type). -/
inductive BufferContents where
  | floats (xs : List Rat)
  | vertexData (vs : List Vertex)
  | indexData (ix : List Nat)
  deriving DecidableEq, Inhabited

/-- A buffer created with `wgpu::util::BufferInitDescriptor`. -/
structure BufferRecord where
  label : Option String
  contents : BufferContents
  usage : BufferUsages
  deriving DecidableEq, Inhabited

/-- A bind group, identified with the descriptor it was created from.  The
glow code only ever builds the two shapes below: a single uniform-buffer
entry, or a texture view at binding 0 plus a sampler at binding 1. -/
inductive BindGroupRecord where
  | uniformGroup (label : String) (layout : BindGroupLayoutDescriptor)
      (buffer : BufferRecord)
  | textureGroup (label : String) (layout : BindGroupLayoutDescriptor)
      (view : Nat) (sampler : SamplerDescriptor)
  deriving DecidableEq, Inhabited

/-- The texture view a bind group samples, if it has a texture entry. -/
def BindGroupRecord.sampledView : BindGroupRecord → Option Nat
  | .uniformGroup _ _ _ => none
  | .textureGroup _ _ view _ => some view

/-- Clear colour (`wgpu::Color`). -/
structure Color where
  r : Rat
  g : Rat
  b : Rat
  a : Rat
  deriving DecidableEq, Inhabited

/-- Opaque black, `wgpu::Color::BLACK`. -/
def Color.BLACK : Color := { r := 0, g := 0, b := 0, a := 1 }

/-- Load policy of a colour attachment (`wgpu::LoadOp`). -/
inductive LoadOp where
  | Clear (color : Color)
  | Load
  deriving DecidableEq, Inhabited

/-- Store policy of a colour attachment (`wgpu::StoreOp`). -/
inductive StoreOp where
  | Store
  | Discard
  deriving DecidableEq, Inhabited

/-- One render pass as recorded on the command encoder: the render-pass
descriptor of `begin_render_pass` together with the pipeline, bind groups,
vertex/index buffers and the indexed draw issued inside the pass. -/
structure RecordedPass where
  label : String
  view : Nat
  resolve_target : Option Nat
  load : LoadOp
  store : StoreOp
  depth_stencil_attachment : Option Unit
  occlusion_query_set : Option Unit
  timestamp_writes : Option Unit
  pipeline : RenderPipelineDescriptor
  bindGroup0 : BindGroupRecord
  bindGroup1 : BindGroupRecord
  vertexBuffer : BufferRecord
  indexBuffer : BufferRecord
  indexFormat : IndexFormat
  drawIndexStart : Nat
  drawIndexEnd : Nat
  baseVertex : Nat
  instanceStart : Nat
  instanceEnd : Nat
  deriving DecidableEq, Inhabited

/-- Errors propagated through `anyhow::Result` in this model: the only
fallible step is GPU texture allocation. -/
inductive GpuError where
  | allocFailed
  deriving DecidableEq, Inhabited

/-- Trace entry for one resource-creating device call. -/
inductive DeviceOp where
  | createTexture (id : Nat) (desc : TextureDescriptor)
  | createView (id : Nat) (texture : Nat)
  | createSampler (desc : SamplerDescriptor)
  | createPipeline (desc : RenderPipelineDescriptor)
  | createBuffer (rec : BufferRecord)
  | createBindGroup (rec : BindGroupRecord)
  deriving DecidableEq, Inhabited

/-- The GPU device: a fresh-id supply, an allocation-failure oracle for
texture creation, and the trace of resource-creating calls. -/
structure Device where
  nextId : Nat
  failTexture : Nat → Bool
  ops : List DeviceOp
  deriving Inhabited

/-- `device.create_texture`: allocates a fresh texture id, or fails per the
oracle (modelling GPU allocation failure). -/
def Device.create_texture (d : Device) (desc : TextureDescriptor) :
    Except GpuError (Nat × Device) :=
  if d.failTexture d.nextId then .error .allocFailed
  else .ok (d.nextId,
    { d with nextId := d.nextId + 1, ops := d.ops ++ [.createTexture d.nextId desc] })

/-- `texture.create_view(&Default::default())`: allocates a fresh view id. -/
def Device.create_view (d : Device) (texture : Nat) : Nat × Device :=
  (d.nextId,
    { d with nextId := d.nextId + 1, ops := d.ops ++ [.createView d.nextId texture] })

/-- `device.create_sampler`: returns the sampler (its descriptor) and logs it. -/
def Device.create_sampler (d : Device) (desc : SamplerDescriptor) :
    SamplerDescriptor × Device :=
  (desc, { d with ops := d.ops ++ [.createSampler desc] })

/-- `device.create_render_pipeline`: returns the pipeline (its descriptor)
and logs it. -/
def Device.create_render_pipeline (d : Device) (desc : RenderPipelineDescriptor) :
    RenderPipelineDescriptor × Device :=
  (desc, { d with ops := d.ops ++ [.createPipeline desc] })

/-- `device.create_buffer_init`: returns the buffer (its record) and logs it. -/
def Device.create_buffer_init (d : Device) (rec : BufferRecord) :
    BufferRecord × Device :=
  (rec, { d with ops := d.ops ++ [.createBuffer rec] })

/-- `device.create_bind_group`: returns the bind group (its record) and logs it. -/
def Device.create_bind_group (d : Device) (rec : BindGroupRecord) :
    BindGroupRecord × Device :=
  (rec, { d with ops := d.ops ++ [.createBindGroup rec] })

/-- `config::ExperimentalGlow`, the configuration record consumed by the glow
renderer.  The struct lives in the `config` crate outside this component's
sources; its five fields are exactly those the glow code reads and its tests
construct (`enabled`, `radius`, `strength`, `threshold`, `color_boost`). -/
structure ExperimentalGlow where
  enabled : Bool
  radius : Rat
  strength : Rat
  threshold : Rat
  color_boost : Rat
  deriving DecidableEq, Inhabited

/-- `window::Dimensions` as consumed here: pixel sizes in `usize`. -/
structure Dimensions where
  pixel_width : Nat
  pixel_height : Nat
  dpi : Nat
  deriving DecidableEq, Inhabited

/-- `GlowUniform`: the `#[repr(C)]` uniform block uploaded to the shader. -/
structure GlowUniform where
  radius : Rat
  threshold : Rat
  strength : Rat
  color_boost : Rat
  deriving DecidableEq, Inhabited

/-- `impl From<&ExperimentalGlow> for GlowUniform`. -/
def GlowUniform.fromConfig (config : ExperimentalGlow) : GlowUniform :=
  { radius := config.radius
    threshold := config.threshold
    strength := config.strength
    color_boost := config.color_boost }

/-- The words of `bytemuck::cast_slice(&[u])` at `f32` granularity: the four
fields in declaration order of the `#[repr(C)]` struct. -/
def GlowUniform.asFloats (u : GlowUniform) : List Rat :=
  [u.radius, u.threshold, u.strength, u.color_boost]

/-- `GlowRenderer`: the glow effect state.  Textures and views are the ids
the device handed out; pipelines, sampler, layouts and quad buffers are the
descriptor records they were created from. -/
structure GlowRenderer where
  glow_src_texture : Nat
  glow_src_view : Nat
  glow_tmp_texture : Nat
  glow_tmp_view : Nat
  extract_pipeline : RenderPipelineDescriptor
  blur_h_pipeline : RenderPipelineDescriptor
  blur_v_pipeline : RenderPipelineDescriptor
  composite_pipeline : RenderPipelineDescriptor
  uniform_bind_group_layout : BindGroupLayoutDescriptor
  texture_bind_group_layout : BindGroupLayoutDescriptor
  linear_sampler : SamplerDescriptor
  quad_vertex_buffer : BufferRecord
  quad_index_buffer : BufferRecord
  width : Nat
  height : Nat
  deriving DecidableEq, Inhabited

/-- `GlowRenderer::create_offscreen_texture`: fixed-descriptor offscreen
texture plus its default view. -/
def GlowRenderer.create_offscreen_texture (device : Device)
    (width height : Nat) (label : String) :
    Except GpuError ((Nat × Nat) × Device) := do
  let (texture, device) ← device.create_texture
    { label := some label
      size := { width := width, height := height, depth_or_array_layers := 1 }
      mip_level_count := 1
      sample_count := 1
      dimension := .D2
      format := .Rgba8UnormSrgb
      usage := { render_attachment := true, texture_binding := true
                 copy_src := false, copy_dst := false }
      view_formats := [] }
  let (view, device) := device.create_view texture
  return ((texture, view), device)

/-- `GlowRenderer::create_pipeline`: one render pipeline over the shared
shader module; additive blending exactly for the `fs_composite` entry point,
`BlendState::REPLACE` otherwise. -/
def GlowRenderer.create_pipeline (device : Device) (shader : String)
    (vs_entry fs_entry : String)
    (uniform_layout texture_layout : BindGroupLayoutDescriptor)
    (format : TextureFormat) (label : String) :
    Except GpuError (RenderPipelineDescriptor × Device) :=
  let pipeline_layout : PipelineLayoutDescriptor :=
    { label := label ++ " Layout"
      bind_group_layouts := [uniform_layout, texture_layout] }
  let blend_state : Option BlendState :=
    if fs_entry = "fs_composite" then
      some { color := { src_factor := .One, dst_factor := .One, operation := .Add }
             alpha := { src_factor := .One, dst_factor := .One, operation := .Add } }
    else
      some BlendState.REPLACE
  let (pipeline, device) := device.create_render_pipeline
    { label := some label
      layout := some pipeline_layout
      vertex := { module_label := shader, entry_point := some vs_entry
                  buffers := [.vertexDesc] }
      fragment := some { module_label := shader, entry_point := some fs_entry
                         targets := [some { format := format, blend := blend_state
                                            write_mask := ColorWrites.ALL }] }
      primitive := { topology := .TriangleList, strip_index_format := none
                     front_face := .Ccw, cull_mode := none, polygon_mode := .Fill
                     unclipped_depth := false, conservative := false }
      depth_stencil := none
      multisample := { count := 1, mask := 2 ^ 64 - 1
                       alpha_to_coverage_enabled := false }
      multiview := none
      cache := none }
  .ok (pipeline, device)

/-- `GlowRenderer::create_fullscreen_quad`: the four NDC corner vertices and
six indices forming two triangles. -/
def GlowRenderer.create_fullscreen_quad (device : Device) :
    Except GpuError ((BufferRecord × BufferRecord) × Device) :=
  let vertices : List Vertex :=
    [ { position := [-1, -1], tex := [0, 1], fg_color := [1, 1, 1, 1]
        alt_color := [0, 0, 0, 0], hsv := [1, 1, 1], has_color := 0, mix_value := 0 }
    , { position := [1, -1], tex := [1, 1], fg_color := [1, 1, 1, 1]
        alt_color := [0, 0, 0, 0], hsv := [1, 1, 1], has_color := 0, mix_value := 0 }
    , { position := [1, 1], tex := [1, 0], fg_color := [1, 1, 1, 1]
        alt_color := [0, 0, 0, 0], hsv := [1, 1, 1], has_color := 0, mix_value := 0 }
    , { position := [-1, 1], tex := [0, 0], fg_color := [1, 1, 1, 1]
        alt_color := [0, 0, 0, 0], hsv := [1, 1, 1], has_color := 0, mix_value := 0 } ]
  let indices : List Nat := [0, 1, 2, 0, 2, 3]
  let (vertex_buffer, device) := device.create_buffer_init
    { label := some "Glow Quad Vertex Buffer"
      contents := .vertexData vertices
      usage := BufferUsages.VERTEX }
  let (index_buffer, device) := device.create_buffer_init
    { label := some "Glow Quad Index Buffer"
      contents := .indexData indices
      usage := BufferUsages.INDEX }
  .ok ((vertex_buffer, index_buffer), device)

/-- `GlowRenderer::new`: offscreen textures, sampler, bind group layouts,
shader module, the four pipelines and the quad geometry, in source order. -/
def GlowRenderer.new (device : Device) (surface_format : TextureFormat)
    (dimensions : Dimensions) : Except GpuError (GlowRenderer × Device) := do
  let width := dimensions.pixel_width % 2 ^ 32
  let height := dimensions.pixel_height % 2 ^ 32
  let ((glow_src_texture, glow_src_view), device) ←
    GlowRenderer.create_offscreen_texture device width height "Glow Source"
  let ((glow_tmp_texture, glow_tmp_view), device) ←
    GlowRenderer.create_offscreen_texture device width height "Glow Temp"
  let (linear_sampler, device) := device.create_sampler
    { address_mode_u := .ClampToEdge
      address_mode_v := .ClampToEdge
      address_mode_w := .ClampToEdge
      mag_filter := .Linear
      min_filter := .Linear
      mipmap_filter := .Linear }
  let uniform_bind_group_layout : BindGroupLayoutDescriptor :=
    { label := some "Glow Uniform Bind Group Layout"
      entries := [
        { binding := 0
          visibility := ShaderStages.FRAGMENT
          ty := .buffer .Uniform false none
          count := none } ] }
  let texture_bind_group_layout : BindGroupLayoutDescriptor :=
    { label := some "Glow Texture Bind Group Layout"
      entries := [
        { binding := 0
          visibility := ShaderStages.FRAGMENT
          ty := .texture false .D2 (.float true)
          count := none }
      , { binding := 1
          visibility := ShaderStages.FRAGMENT
          ty := .sampler .Filtering
          count := none } ] }
  let glow_shader := "Glow Shader"
  let (extract_pipeline, device) ← GlowRenderer.create_pipeline device glow_shader
    "vs_fullscreen" "fs_extract" uniform_bind_group_layout texture_bind_group_layout
    surface_format "Glow Extract Pipeline"
  let (blur_h_pipeline, device) ← GlowRenderer.create_pipeline device glow_shader
    "vs_fullscreen" "fs_blur_h" uniform_bind_group_layout texture_bind_group_layout
    surface_format "Glow Blur H Pipeline"
  let (blur_v_pipeline, device) ← GlowRenderer.create_pipeline device glow_shader
    "vs_fullscreen" "fs_blur_v" uniform_bind_group_layout texture_bind_group_layout
    surface_format "Glow Blur V Pipeline"
  let (composite_pipeline, device) ← GlowRenderer.create_pipeline device glow_shader
    "vs_fullscreen" "fs_composite" uniform_bind_group_layout texture_bind_group_layout
    surface_format "Glow Composite Pipeline"
  let ((quad_vertex_buffer, quad_index_buffer), device) ←
    GlowRenderer.create_fullscreen_quad device
  return (
    { glow_src_texture := glow_src_texture
      glow_src_view := glow_src_view
      glow_tmp_texture := glow_tmp_texture
      glow_tmp_view := glow_tmp_view
      extract_pipeline := extract_pipeline
      blur_h_pipeline := blur_h_pipeline
      blur_v_pipeline := blur_v_pipeline
      composite_pipeline := composite_pipeline
      uniform_bind_group_layout := uniform_bind_group_layout
      texture_bind_group_layout := texture_bind_group_layout
      linear_sampler := linear_sampler
      quad_vertex_buffer := quad_vertex_buffer
      quad_index_buffer := quad_index_buffer
      width := width
      height := height }, device)

/-- `GlowRenderer::resize`: no-op when the (truncated) dimensions are
unchanged; otherwise both offscreen textures and views are recreated before
any field is assigned, and width/height are updated.  The returned
`GlowRenderer` is the post-call `self` (unchanged on every error path). -/
def GlowRenderer.resize (self : GlowRenderer) (device : Device)
    (dimensions : Dimensions) : GlowRenderer × Device × Except GpuError Unit :=
  let new_width := dimensions.pixel_width % 2 ^ 32
  let new_height := dimensions.pixel_height % 2 ^ 32
  if new_width ≠ self.width ∨ new_height ≠ self.height then
    match GlowRenderer.create_offscreen_texture device new_width new_height "Glow Source" with
    | .error e => (self, device, .error e)
    | .ok ((glow_src_texture, glow_src_view), device) =>
      match GlowRenderer.create_offscreen_texture device new_width new_height "Glow Temp" with
      | .error e => (self, device, .error e)
      | .ok ((glow_tmp_texture, glow_tmp_view), device) =>
        ({ self with
            glow_src_texture := glow_src_texture
            glow_src_view := glow_src_view
            glow_tmp_texture := glow_tmp_texture
            glow_tmp_view := glow_tmp_view
            width := new_width
            height := new_height }, device, .ok ())
  else
    (self, device, .ok ())

/-- `GlowRenderer::render_glow`: the guard clause followed by the uniform
upload and the four recorded passes (extract, blur-horizontal, blur-vertical,
composite).  Returns the post-call device, the passes this call recorded on
the encoder, and the `anyhow::Result` status. -/
def GlowRenderer.render_glow (self : GlowRenderer) (device : Device)
    (main_color_view : Nat) (glow_config : ExperimentalGlow) :
    Device × List RecordedPass × Except GpuError Unit :=
  if glow_config.enabled = false ∨ glow_config.strength ≤ 0 ∨ glow_config.radius ≤ 0 then
    (device, [], .ok ())
  else
    let glow_uniform := GlowUniform.fromConfig glow_config
    let (uniform_buffer, device) := device.create_buffer_init
      { label := some "Glow Uniform Buffer"
        contents := .floats glow_uniform.asFloats
        usage := BufferUsages.UNIFORM }
    let (uniform_bind_group, device) := device.create_bind_group
      (.uniformGroup "Glow Uniform Bind Group" self.uniform_bind_group_layout uniform_buffer)
    let (main_texture_bind_group, device) := device.create_bind_group
      (.textureGroup "Main Texture Bind Group" self.texture_bind_group_layout
        main_color_view self.linear_sampler)
    let extract_pass : RecordedPass :=
      { label := "Glow Extract Pass"
        view := self.glow_src_view
        resolve_target := none
        load := .Clear Color.BLACK
        store := .Store
        depth_stencil_attachment := none
        occlusion_query_set := none
        timestamp_writes := none
        pipeline := self.extract_pipeline
        bindGroup0 := uniform_bind_group
        bindGroup1 := main_texture_bind_group
        vertexBuffer := self.quad_vertex_buffer
        indexBuffer := self.quad_index_buffer
        indexFormat := .Uint16
        drawIndexStart := 0
        drawIndexEnd := 6
        baseVertex := 0
        instanceStart := 0
        instanceEnd := 1 }
    let (glow_src_bind_group, device) := device.create_bind_group
      (.textureGroup "Glow Src Bind Group" self.texture_bind_group_layout
        self.glow_src_view self.linear_sampler)
    let blur_h_pass : RecordedPass :=
      { label := "Glow Blur H Pass"
        view := self.glow_tmp_view
        resolve_target := none
        load := .Clear Color.BLACK
        store := .Store
        depth_stencil_attachment := none
        occlusion_query_set := none
        timestamp_writes := none
        pipeline := self.blur_h_pipeline
        bindGroup0 := uniform_bind_group
        bindGroup1 := glow_src_bind_group
        vertexBuffer := self.quad_vertex_buffer
        indexBuffer := self.quad_index_buffer
        indexFormat := .Uint16
        drawIndexStart := 0
        drawIndexEnd := 6
        baseVertex := 0
        instanceStart := 0
        instanceEnd := 1 }
    let (glow_tmp_bind_group, device) := device.create_bind_group
      (.textureGroup "Glow Tmp Bind Group" self.texture_bind_group_layout
        self.glow_tmp_view self.linear_sampler)
    let blur_v_pass : RecordedPass :=
      { label := "Glow Blur V Pass"
        view := self.glow_src_view
        resolve_target := none
        load := .Clear Color.BLACK
        store := .Store
        depth_stencil_attachment := none
        occlusion_query_set := none
        timestamp_writes := none
        pipeline := self.blur_v_pipeline
        bindGroup0 := uniform_bind_group
        bindGroup1 := glow_tmp_bind_group
        vertexBuffer := self.quad_vertex_buffer
        indexBuffer := self.quad_index_buffer
        indexFormat := .Uint16
        drawIndexStart := 0
        drawIndexEnd := 6
        baseVertex := 0
        instanceStart := 0
        instanceEnd := 1 }
    let (glow_final_bind_group, device) := device.create_bind_group
      (.textureGroup "Glow Final Bind Group" self.texture_bind_group_layout
        self.glow_src_view self.linear_sampler)
    let composite_pass : RecordedPass :=
      { label := "Glow Composite Pass"
        view := main_color_view
        resolve_target := none
        load := .Load
        store := .Store
        depth_stencil_attachment := none
        occlusion_query_set := none
        timestamp_writes := none
        pipeline := self.composite_pipeline
        bindGroup0 := uniform_bind_group
        bindGroup1 := glow_final_bind_group
        vertexBuffer := self.quad_vertex_buffer
        indexBuffer := self.quad_index_buffer
        indexFormat := .Uint16
        drawIndexStart := 0
        drawIndexEnd := 6
        baseVertex := 0
        instanceStart := 0
        instanceEnd := 1 }
    (device, [extract_pass, blur_h_pass, blur_v_pass, composite_pass], .ok ())

/-- The blend state of a pipeline's single colour target, if any. -/
def RenderPipelineDescriptor.blendOf (p : RenderPipelineDescriptor) :
    Option BlendState :=
  match p.fragment with
  | none => none
  | some f =>
    match f.targets with
    | [some t] => t.blend
    | _ => none

/-- The format of a pipeline's single colour target, if any. -/
def RenderPipelineDescriptor.targetFormat (p : RenderPipelineDescriptor) :
    Option TextureFormat :=
  match p.fragment with
  | none => none
  | some f =>
    match f.targets with
    | [some t] => some t.format
    | _ => none

/-- The fragment entry point of a pipeline, if any. -/
def RenderPipelineDescriptor.fsEntryOf (p : RenderPipelineDescriptor) :
    Option String :=
  match p.fragment with
  | none => none
  | some f => f.entry_point

/-- The vertex entry point of a pipeline. -/
def RenderPipelineDescriptor.vsEntryOf (p : RenderPipelineDescriptor) :
    Option String :=
  p.vertex.entry_point

/-- All texture and view ids held by the renderer predate the device's next
fresh id (true of every renderer the device itself produced). -/
def GlowRenderer.Fresh (d : Device) (s : GlowRenderer) : Prop :=
  s.glow_src_texture < d.nextId ∧ s.glow_src_view < d.nextId ∧
  s.glow_tmp_texture < d.nextId ∧ s.glow_tmp_view < d.nextId

instance (d : Device) (s : GlowRenderer) : Decidable (GlowRenderer.Fresh d s) :=
  inferInstanceAs (Decidable (_ < _ ∧ _ < _ ∧ _ < _ ∧ _ < _))

/-- The renderer produced by a successful `GlowRenderer::new` (used to build
concrete evaluation inputs). -/
def GlowRenderer.newRenderer (device : Device) (surface_format : TextureFormat)
    (dimensions : Dimensions) : GlowRenderer :=
  match GlowRenderer.new device surface_format dimensions with
  | .ok (s, _) => s
  | .error _ => default

/-- The device state after a successful `GlowRenderer::new`. -/
def GlowRenderer.newDeviceAfter (device : Device) (surface_format : TextureFormat)
    (dimensions : Dimensions) : Device :=
  match GlowRenderer.new device surface_format dimensions with
  | .ok (_, d) => d
  | .error _ => default

/-- A fresh device on which every texture allocation succeeds. -/
def dev0 : Device := { nextId := 0, failTexture := fun _ => false, ops := [] }

/-- Initial window dimensions used for concrete evaluation. -/
def dims0 : Dimensions := { pixel_width := 800, pixel_height := 600, dpi := 96 }

/-- A different window size used for concrete evaluation of `resize`. -/
def dims1 : Dimensions := { pixel_width := 1024, pixel_height := 768, dpi := 96 }

/-- An enabled glow configuration with positive strength and radius. -/
def cfg0 : ExperimentalGlow :=
  { enabled := true, radius := 2, strength := 1, threshold := 0, color_boost := 1 }

/-- A disabled glow configuration. -/
def cfgOff : ExperimentalGlow :=
  { enabled := false, radius := 3, strength := 4/5, threshold := 3/5, color_boost := 6/5 }

/-- Concrete renderer built at `dims0` on `dev0`. -/
def renderer0 : GlowRenderer := GlowRenderer.newRenderer dev0 .Rgba8UnormSrgb dims0

/-- Device state paired with `renderer0`. -/
def dev4 : Device := GlowRenderer.newDeviceAfter dev0 .Rgba8UnormSrgb dims0

/-- A device whose third texture allocation (id 6) fails. -/
def devFail1 : Device := { nextId := 4, failTexture := fun n => n == 6, ops := [] }

/-- Closed form of `create_offscreen_texture`: either the oracle fails the
allocation, or a texture and view with consecutive fresh ids are created with
the fixed offscreen descriptor. -/
theorem create_offscreen_texture_eq (d : Device) (w h : Nat) (lbl : String) :
    GlowRenderer.create_offscreen_texture d w h lbl =
      if d.failTexture d.nextId then .error .allocFailed
      else .ok ((d.nextId, d.nextId + 1),
        { d with nextId := d.nextId + 2
                 ops := d.ops ++
                  [.createTexture d.nextId
                    { label := some lbl
                      size := { width := w, height := h, depth_or_array_layers := 1 }
                      mip_level_count := 1
                      sample_count := 1
                      dimension := .D2
                      format := .Rgba8UnormSrgb
                      usage := { render_attachment := true, texture_binding := true
                                 copy_src := false, copy_dst := false }
                      view_formats := [] },
                   .createView (d.nextId + 1) d.nextId] }) := by
  simp only [GlowRenderer.create_offscreen_texture, Device.create_texture,
    Device.create_view, bind, Except.bind]
  split_ifs
  · rfl
  · simp only [List.append_assoc, List.cons_append, List.nil_append]
    rfl

/-- Closed form of `resize`: a no-op when the truncated dimensions match the
stored ones; otherwise both offscreen surfaces are recreated (the first
failure returning with `self` untouched) and the four ids plus width/height
are updated. -/
theorem resize_eq (s : GlowRenderer) (d : Device) (dims : Dimensions) :
    s.resize d dims =
      (let nw := dims.pixel_width % 2 ^ 32
       let nh := dims.pixel_height % 2 ^ 32
       let srcDesc : TextureDescriptor :=
         { label := some "Glow Source"
           size := { width := nw, height := nh, depth_or_array_layers := 1 }
           mip_level_count := 1
           sample_count := 1
           dimension := .D2
           format := .Rgba8UnormSrgb
           usage := { render_attachment := true, texture_binding := true
                      copy_src := false, copy_dst := false }
           view_formats := [] }
       let tmpDesc : TextureDescriptor := { srcDesc with label := some "Glow Temp" }
       if nw ≠ s.width ∨ nh ≠ s.height then
         if d.failTexture d.nextId then (s, d, .error .allocFailed)
         else if d.failTexture (d.nextId + 2) then
           (s, { d with nextId := d.nextId + 2
                        ops := d.ops ++ [.createTexture d.nextId srcDesc,
                                         .createView (d.nextId + 1) d.nextId] },
            .error .allocFailed)
         else
           ({ s with glow_src_texture := d.nextId
                     glow_src_view := d.nextId + 1
                     glow_tmp_texture := d.nextId + 2
                     glow_tmp_view := d.nextId + 3
                     width := nw
                     height := nh },
            { d with nextId := d.nextId + 4
                     ops := d.ops ++ [.createTexture d.nextId srcDesc,
                                      .createView (d.nextId + 1) d.nextId,
                                      .createTexture (d.nextId + 2) tmpDesc,
                                      .createView (d.nextId + 3) (d.nextId + 2)] },
            .ok ())
       else (s, d, .ok ())) := by
  simp only [GlowRenderer.resize, create_offscreen_texture_eq]
  split_ifs <;> simp_all [List.append_assoc]

/-- Closed form of `GlowRenderer::new`: either one of the two texture
allocations fails (propagated, nothing exposed), or the fully-built renderer
and the device trace of all eleven resource creations are returned. -/
theorem new_eq (d : Device) (fmt : TextureFormat) (dims : Dimensions) :
    GlowRenderer.new d fmt dims =
      (let nw := dims.pixel_width % 2 ^ 32
       let nh := dims.pixel_height % 2 ^ 32
       let srcDesc : TextureDescriptor :=
         { label := some "Glow Source"
           size := { width := nw, height := nh, depth_or_array_layers := 1 }
           mip_level_count := 1
           sample_count := 1
           dimension := .D2
           format := .Rgba8UnormSrgb
           usage := { render_attachment := true, texture_binding := true
                      copy_src := false, copy_dst := false }
           view_formats := [] }
       let tmpDesc : TextureDescriptor := { srcDesc with label := some "Glow Temp" }
       let samplerDesc : SamplerDescriptor :=
         { address_mode_u := .ClampToEdge
           address_mode_v := .ClampToEdge
           address_mode_w := .ClampToEdge
           mag_filter := .Linear
           min_filter := .Linear
           mipmap_filter := .Linear }
       let uLayout : BindGroupLayoutDescriptor :=
         { label := some "Glow Uniform Bind Group Layout"
           entries := [
             { binding := 0
               visibility := ShaderStages.FRAGMENT
               ty := .buffer .Uniform false none
               count := none } ] }
       let tLayout : BindGroupLayoutDescriptor :=
         { label := some "Glow Texture Bind Group Layout"
           entries := [
             { binding := 0
               visibility := ShaderStages.FRAGMENT
               ty := .texture false .D2 (.float true)
               count := none }
           , { binding := 1
               visibility := ShaderStages.FRAGMENT
               ty := .sampler .Filtering
               count := none } ] }
       let mkPipe := fun (fs lbl : String) (blend : BlendState) =>
         ({ label := some lbl
            layout := some { label := lbl ++ " Layout"
                             bind_group_layouts := [uLayout, tLayout] }
            vertex := { module_label := "Glow Shader"
                        entry_point := some "vs_fullscreen"
                        buffers := [.vertexDesc] }
            fragment := some { module_label := "Glow Shader"
                               entry_point := some fs
                               targets := [some { format := fmt, blend := some blend
                                                  write_mask := ColorWrites.ALL }] }
            primitive := { topology := .TriangleList, strip_index_format := none
                           front_face := .Ccw, cull_mode := none
                           polygon_mode := .Fill, unclipped_depth := false
                           conservative := false }
            depth_stencil := none
            multisample := { count := 1, mask := 2 ^ 64 - 1
                             alpha_to_coverage_enabled := false }
            multiview := none
            cache := none } : RenderPipelineDescriptor)
       let additive : BlendState :=
         { color := { src_factor := .One, dst_factor := .One, operation := .Add }
           alpha := { src_factor := .One, dst_factor := .One, operation := .Add } }
       let extractP := mkPipe "fs_extract" "Glow Extract Pipeline" BlendState.REPLACE
       let blurHP := mkPipe "fs_blur_h" "Glow Blur H Pipeline" BlendState.REPLACE
       let blurVP := mkPipe "fs_blur_v" "Glow Blur V Pipeline" BlendState.REPLACE
       let compositeP := mkPipe "fs_composite" "Glow Composite Pipeline" additive
       let quadVertices : List Vertex :=
         [ { position := [-1, -1], tex := [0, 1], fg_color := [1, 1, 1, 1]
             alt_color := [0, 0, 0, 0], hsv := [1, 1, 1], has_color := 0, mix_value := 0 }
         , { position := [1, -1], tex := [1, 1], fg_color := [1, 1, 1, 1]
             alt_color := [0, 0, 0, 0], hsv := [1, 1, 1], has_color := 0, mix_value := 0 }
         , { position := [1, 1], tex := [1, 0], fg_color := [1, 1, 1, 1]
             alt_color := [0, 0, 0, 0], hsv := [1, 1, 1], has_color := 0, mix_value := 0 }
         , { position := [-1, 1], tex := [0, 0], fg_color := [1, 1, 1, 1]
             alt_color := [0, 0, 0, 0], hsv := [1, 1, 1], has_color := 0, mix_value := 0 } ]
       let vbuf : BufferRecord :=
         { label := some "Glow Quad Vertex Buffer"
           contents := .vertexData quadVertices
           usage := BufferUsages.VERTEX }
       let ibuf : BufferRecord :=
         { label := some "Glow Quad Index Buffer"
           contents := .indexData [0, 1, 2, 0, 2, 3]
           usage := BufferUsages.INDEX }
       if d.failTexture d.nextId then .error .allocFailed
       else if d.failTexture (d.nextId + 2) then .error .allocFailed
       else .ok (
         { glow_src_texture := d.nextId
           glow_src_view := d.nextId + 1
           glow_tmp_texture := d.nextId + 2
           glow_tmp_view := d.nextId + 3
           extract_pipeline := extractP
           blur_h_pipeline := blurHP
           blur_v_pipeline := blurVP
           composite_pipeline := compositeP
           uniform_bind_group_layout := uLayout
           texture_bind_group_layout := tLayout
           linear_sampler := samplerDesc
           quad_vertex_buffer := vbuf
           quad_index_buffer := ibuf
           width := nw
           height := nh },
         { d with nextId := d.nextId + 4
                  ops := d.ops ++
                    [.createTexture d.nextId srcDesc,
                     .createView (d.nextId + 1) d.nextId,
                     .createTexture (d.nextId + 2) tmpDesc,
                     .createView (d.nextId + 3) (d.nextId + 2),
                     .createSampler samplerDesc,
                     .createPipeline extractP,
                     .createPipeline blurHP,
                     .createPipeline blurVP,
                     .createPipeline compositeP,
                     .createBuffer vbuf,
                     .createBuffer ibuf] })) := by
  simp only [GlowRenderer.new, create_offscreen_texture_eq,
    GlowRenderer.create_pipeline, GlowRenderer.create_fullscreen_quad,
    Device.create_sampler, Device.create_render_pipeline,
    Device.create_buffer_init, bind, Except.bind, String.reduceEq, reduceIte]
  split_ifs
  · rfl
  · simp_all
  · simp_all only [List.append_assoc, List.cons_append, List.nil_append,
      Bool.false_eq_true, if_false, reduceIte]
    rfl

/-- Closed form of `render_glow` past the guard: one uniform buffer, five
bind groups, and the four passes in extract / blur-h / blur-v / composite
order. -/
theorem render_glow_eq_pos (s : GlowRenderer) (d : Device) (main : Nat)
    (cfg : ExperimentalGlow)
    (h : ¬(cfg.enabled = false ∨ cfg.strength ≤ 0 ∨ cfg.radius ≤ 0)) :
    s.render_glow d main cfg =
      (let uBuf : BufferRecord :=
         { label := some "Glow Uniform Buffer"
           contents := .floats [cfg.radius, cfg.threshold, cfg.strength, cfg.color_boost]
           usage := BufferUsages.UNIFORM }
       let uGroup : BindGroupRecord :=
         .uniformGroup "Glow Uniform Bind Group" s.uniform_bind_group_layout uBuf
       let mainGroup : BindGroupRecord :=
         .textureGroup "Main Texture Bind Group" s.texture_bind_group_layout
           main s.linear_sampler
       let srcGroup : BindGroupRecord :=
         .textureGroup "Glow Src Bind Group" s.texture_bind_group_layout
           s.glow_src_view s.linear_sampler
       let tmpGroup : BindGroupRecord :=
         .textureGroup "Glow Tmp Bind Group" s.texture_bind_group_layout
           s.glow_tmp_view s.linear_sampler
       let finalGroup : BindGroupRecord :=
         .textureGroup "Glow Final Bind Group" s.texture_bind_group_layout
           s.glow_src_view s.linear_sampler
       let mkPass := fun (lbl : String) (target : Nat) (ld : LoadOp)
           (pipe : RenderPipelineDescriptor) (bg1 : BindGroupRecord) =>
         ({ label := lbl
            view := target
            resolve_target := none
            load := ld
            store := .Store
            depth_stencil_attachment := none
            occlusion_query_set := none
            timestamp_writes := none
            pipeline := pipe
            bindGroup0 := uGroup
            bindGroup1 := bg1
            vertexBuffer := s.quad_vertex_buffer
            indexBuffer := s.quad_index_buffer
            indexFormat := .Uint16
            drawIndexStart := 0
            drawIndexEnd := 6
            baseVertex := 0
            instanceStart := 0
            instanceEnd := 1 } : RecordedPass)
       ({ d with ops := d.ops ++
            [.createBuffer uBuf, .createBindGroup uGroup, .createBindGroup mainGroup,
             .createBindGroup srcGroup, .createBindGroup tmpGroup,
             .createBindGroup finalGroup] },
        [mkPass "Glow Extract Pass" s.glow_src_view (.Clear Color.BLACK)
           s.extract_pipeline mainGroup,
         mkPass "Glow Blur H Pass" s.glow_tmp_view (.Clear Color.BLACK)
           s.blur_h_pipeline srcGroup,
         mkPass "Glow Blur V Pass" s.glow_src_view (.Clear Color.BLACK)
           s.blur_v_pipeline tmpGroup,
         mkPass "Glow Composite Pass" main .Load s.composite_pipeline finalGroup],
        .ok ())) := by
  simp only [GlowRenderer.render_glow, if_neg h, Device.create_buffer_init,
    Device.create_bind_group, GlowUniform.fromConfig, GlowUniform.asFloats,
    List.append_assoc, List.cons_append, List.nil_append]

/-- Claim C1: whenever the effect is disabled, or `strength <= 0`, or
`radius <= 0`, `render_glow` returns success immediately with no GPU work at
all: the device is unchanged (so no buffer, bind group or texture is
created) and no render pass is recorded on the encoder. -/
theorem render_glow_guard_no_gpu_work (s : GlowRenderer) (d : Device)
    (main : Nat) (cfg : ExperimentalGlow)
    (h : cfg.enabled = false ∨ cfg.strength ≤ 0 ∨ cfg.radius ≤ 0) :
    s.render_glow d main cfg = (d, [], .ok ()) := by
  simp only [GlowRenderer.render_glow, if_pos h]

/-- Claim C1 witness: at a concrete disabled configuration the guard path is
taken on concrete state. -/
theorem render_glow_guard_no_gpu_work_witness :
    renderer0.render_glow dev4 100 cfgOff = (dev4, [], .ok ()) :=
  render_glow_guard_no_gpu_work renderer0 dev4 100 cfgOff (Or.inl rfl)

/-- Claim C2: past the guard, exactly four passes are recorded in the order
extract, blur-horizontal, blur-vertical, composite; extract samples only the
caller's main colour view and writes only "src", the horizontal blur samples
only "src" and writes only "tmp", the vertical blur samples only "tmp" and
writes only "src", and the composite samples only "src" and writes only the
main view; the uniform bind group carries no texture, and no pass samples
the view it writes. -/
theorem render_glow_four_pass_dataflow (s : GlowRenderer) (d : Device)
    (main : Nat) (cfg : ExperimentalGlow)
    (he : cfg.enabled = true) (hs : 0 < cfg.strength) (hr : 0 < cfg.radius)
    (hms : main ≠ s.glow_src_view) (hst : s.glow_src_view ≠ s.glow_tmp_view) :
    ((s.render_glow d main cfg).2.1.map
        fun p => (p.pipeline, p.view, p.bindGroup1.sampledView)) =
      [(s.extract_pipeline, s.glow_src_view, some main),
       (s.blur_h_pipeline, s.glow_tmp_view, some s.glow_src_view),
       (s.blur_v_pipeline, s.glow_src_view, some s.glow_tmp_view),
       (s.composite_pipeline, main, some s.glow_src_view)]
    ∧ ((s.render_glow d main cfg).2.1.map fun p => p.bindGroup0.sampledView) =
        [none, none, none, none]
    ∧ ∀ p ∈ (s.render_glow d main cfg).2.1,
        p.bindGroup1.sampledView ≠ some p.view := by
  have h : ¬(cfg.enabled = false ∨ cfg.strength ≤ 0 ∨ cfg.radius ≤ 0) := by
    push_neg
    exact ⟨by simp [he], hs, hr⟩
  refine ⟨?_, ?_, ?_⟩
  · simp [render_glow_eq_pos s d main cfg h, BindGroupRecord.sampledView]
  · simp [render_glow_eq_pos s d main cfg h, BindGroupRecord.sampledView]
  · intro p hp
    rw [render_glow_eq_pos s d main cfg h] at hp
    simp only [List.mem_cons, List.not_mem_nil, or_false] at hp
    rcases hp with rfl | rfl | rfl | rfl <;>
      simp [BindGroupRecord.sampledView, hms, hst, Ne.symm hms, Ne.symm hst]

/-- Claim C2 witness: on concrete state past the guard, exactly four passes
are recorded. -/
theorem render_glow_four_pass_dataflow_witness :
    ((renderer0.render_glow dev4 100 cfg0).2.1.map
        fun p => (p.pipeline, p.view, p.bindGroup1.sampledView)) =
      [(renderer0.extract_pipeline, renderer0.glow_src_view, some 100),
       (renderer0.blur_h_pipeline, renderer0.glow_tmp_view, some renderer0.glow_src_view),
       (renderer0.blur_v_pipeline, renderer0.glow_src_view, some renderer0.glow_tmp_view),
       (renderer0.composite_pipeline, 100, some renderer0.glow_src_view)] :=
  (render_glow_four_pass_dataflow renderer0 dev4 100 cfg0 rfl (by decide)
    (by decide) (by decide) (by decide)).1

/-- Claim C4: past the guard, the three offscreen-target passes use a
clear-to-black load with store-on-finish, the composite pass to the caller's
main view uses a load (preserve) policy with store, and no recorded pass ever
clears the caller-owned main view. -/
theorem render_pass_load_store_policy (s : GlowRenderer) (d : Device)
    (main : Nat) (cfg : ExperimentalGlow)
    (he : cfg.enabled = true) (hs : 0 < cfg.strength) (hr : 0 < cfg.radius)
    (hms : main ≠ s.glow_src_view) (hmt : main ≠ s.glow_tmp_view) :
    ((s.render_glow d main cfg).2.1.map fun p => (p.view, p.load, p.store)) =
      [(s.glow_src_view, .Clear Color.BLACK, .Store),
       (s.glow_tmp_view, .Clear Color.BLACK, .Store),
       (s.glow_src_view, .Clear Color.BLACK, .Store),
       (main, .Load, .Store)]
    ∧ ∀ p ∈ (s.render_glow d main cfg).2.1, p.view = main → p.load = LoadOp.Load := by
  have h : ¬(cfg.enabled = false ∨ cfg.strength ≤ 0 ∨ cfg.radius ≤ 0) := by
    push_neg
    exact ⟨by simp [he], hs, hr⟩
  refine ⟨?_, ?_⟩
  · simp [render_glow_eq_pos s d main cfg h]
  · intro p hp
    rw [render_glow_eq_pos s d main cfg h] at hp
    simp only [List.mem_cons, List.not_mem_nil, or_false] at hp
    rcases hp with rfl | rfl | rfl | rfl <;>
      simp [Ne.symm hms, Ne.symm hmt]

/-- Claim C4 witness: the recorded load/store policies at concrete inputs. -/
theorem render_pass_load_store_policy_witness :
    ((renderer0.render_glow dev4 100 cfg0).2.1.map
        fun p => (p.view, p.load, p.store)) =
      [(renderer0.glow_src_view, .Clear Color.BLACK, .Store),
       (renderer0.glow_tmp_view, .Clear Color.BLACK, .Store),
       (renderer0.glow_src_view, .Clear Color.BLACK, .Store),
       (100, .Load, .Store)] :=
  (render_pass_load_store_policy renderer0 dev4 100 cfg0 rfl (by decide)
    (by decide) (by decide) (by decide)).1

/-- Claim C8: converting a configuration to `GlowUniform` is the identity on
the four numeric fields, and past the guard exactly those four values, in
field order, are the contents of the uniform buffer created for the frame. -/
theorem uniform_conversion_identity :
    (∀ cfg : ExperimentalGlow,
      GlowUniform.fromConfig cfg =
        { radius := cfg.radius, threshold := cfg.threshold
          strength := cfg.strength, color_boost := cfg.color_boost })
    ∧ (∀ (s : GlowRenderer) (d : Device) (main : Nat) (cfg : ExperimentalGlow),
        cfg.enabled = true → 0 < cfg.strength → 0 < cfg.radius →
        DeviceOp.createBuffer
          { label := some "Glow Uniform Buffer"
            contents := .floats [cfg.radius, cfg.threshold, cfg.strength, cfg.color_boost]
            usage := BufferUsages.UNIFORM } ∈ (s.render_glow d main cfg).1.ops) := by
  refine ⟨fun cfg => rfl, ?_⟩
  intro s d main cfg he hs hr
  have h : ¬(cfg.enabled = false ∨ cfg.strength ≤ 0 ∨ cfg.radius ≤ 0) := by
    push_neg
    exact ⟨by simp [he], hs, hr⟩
  rw [render_glow_eq_pos s d main cfg h]
  simp

/-- Claim C8 witness: the uniform buffer created for a concrete configuration
holds exactly its four numeric fields. -/
theorem uniform_conversion_identity_witness :
    DeviceOp.createBuffer
      { label := some "Glow Uniform Buffer"
        contents := .floats [cfg0.radius, cfg0.threshold, cfg0.strength, cfg0.color_boost]
        usage := BufferUsages.UNIFORM } ∈ (renderer0.render_glow dev4 100 cfg0).1.ops :=
  uniform_conversion_identity.2 renderer0 dev4 100 cfg0 rfl (by decide) (by decide)

/-- Claim C3: of the four pipelines built at construction, exactly the
composite pipeline is configured with additive blending (source factor one,
destination factor one, operation add, for both the colour and the alpha
channel); the extract and the two blur pipelines use opaque replace
blending, which differs from the additive configuration. -/
theorem pipeline_blend_modes (d : Device) (fmt : TextureFormat)
    (dims : Dimensions) (s : GlowRenderer) (d' : Device)
    (h : GlowRenderer.new d fmt dims = .ok (s, d')) :
    s.composite_pipeline.blendOf =
      some { color := { src_factor := .One, dst_factor := .One, operation := .Add }
             alpha := { src_factor := .One, dst_factor := .One, operation := .Add } }
    ∧ s.extract_pipeline.blendOf = some BlendState.REPLACE
    ∧ s.blur_h_pipeline.blendOf = some BlendState.REPLACE
    ∧ s.blur_v_pipeline.blendOf = some BlendState.REPLACE
    ∧ BlendState.REPLACE ≠
        { color := { src_factor := .One, dst_factor := .One, operation := .Add }
          alpha := { src_factor := .One, dst_factor := .One, operation := .Add } } := by
  rw [new_eq] at h
  simp only [] at h
  split_ifs at h
  simp only [Except.ok.injEq, Prod.mk.injEq] at h
  obtain ⟨hs, hd⟩ := h
  subst hs
  exact ⟨rfl, rfl, rfl, rfl, by decide⟩

/-- Claim C3 witness: the composite pipeline of a concretely constructed
renderer carries the additive blend configuration. -/
theorem pipeline_blend_modes_witness :
    (GlowRenderer.newRenderer dev0 .Rgba8UnormSrgb dims0).composite_pipeline.blendOf =
      some { color := { src_factor := .One, dst_factor := .One, operation := .Add }
             alpha := { src_factor := .One, dst_factor := .One, operation := .Add } } :=
  (pipeline_blend_modes dev0 .Rgba8UnormSrgb dims0
    (GlowRenderer.newRenderer dev0 .Rgba8UnormSrgb dims0)
    (GlowRenderer.newDeviceAfter dev0 .Rgba8UnormSrgb dims0) rfl).1

/-- Claim C5: `resize` is a complete no-op returning success (state and
device unchanged, so no allocation) exactly when the new truncated width and
height both equal the stored ones; otherwise, on success, both offscreen
textures and views are replaced by the four freshly allocated ids, width and
height are updated, and the pipelines, bind group layouts, sampler and quad
buffers are untouched (all visible in the record update). -/
theorem resize_noop_iff_same_dimensions (s : GlowRenderer) (d : Device)
    (dims : Dimensions) (hf : GlowRenderer.Fresh d s) :
    (s.resize d dims = (s, d, .ok ()) ↔
      (dims.pixel_width % 2 ^ 32 = s.width ∧ dims.pixel_height % 2 ^ 32 = s.height))
    ∧ (¬(dims.pixel_width % 2 ^ 32 = s.width ∧ dims.pixel_height % 2 ^ 32 = s.height) →
        ∀ s' d', s.resize d dims = (s', d', .ok ()) →
          s' = { s with glow_src_texture := d.nextId
                        glow_src_view := d.nextId + 1
                        glow_tmp_texture := d.nextId + 2
                        glow_tmp_view := d.nextId + 3
                        width := dims.pixel_width % 2 ^ 32
                        height := dims.pixel_height % 2 ^ 32 }
          ∧ s'.glow_src_texture ≠ s.glow_src_texture
          ∧ s'.glow_src_view ≠ s.glow_src_view
          ∧ s'.glow_tmp_texture ≠ s.glow_tmp_texture
          ∧ s'.glow_tmp_view ≠ s.glow_tmp_view) := by
  obtain ⟨f1, f2, f3, f4⟩ := hf
  by_cases hc : dims.pixel_width % 2 ^ 32 = s.width ∧ dims.pixel_height % 2 ^ 32 = s.height
  · have hnc : ¬(dims.pixel_width % 2 ^ 32 ≠ s.width ∨ dims.pixel_height % 2 ^ 32 ≠ s.height) := by
      push_neg
      exact hc
    refine ⟨?_, fun hcontra => absurd hc hcontra⟩
    rw [resize_eq]
    simp only []
    simp only [if_neg hnc]
    exact iff_of_true trivial hc
  · have hcond : dims.pixel_width % 2 ^ 32 ≠ s.width ∨ dims.pixel_height % 2 ^ 32 ≠ s.height := by
      rcases not_and_or.mp hc with h1 | h1
      · exact Or.inl h1
      · exact Or.inr h1
    constructor
    · rw [resize_eq]
      simp only []
      simp only [if_pos hcond]
      constructor
      · intro hEq
        exfalso
        split_ifs at hEq
        all_goals try exact Except.noConfusion (congrArg (fun t => t.2.2) hEq)
        simp only [Prod.mk.injEq] at hEq
        obtain ⟨hS, -, -⟩ := hEq
        have hw := congrArg GlowRenderer.width hS
        have hh := congrArg GlowRenderer.height hS
        simp only at hw hh
        exact hc ⟨hw, hh⟩
      · intro hEq2
        exact absurd hEq2 hc
    · intro _ s' d' hEq
      rw [resize_eq] at hEq
      simp only [] at hEq
      simp only [if_pos hcond] at hEq
      split_ifs at hEq
      all_goals try exact Except.noConfusion (congrArg (fun t => t.2.2) hEq)
      simp only [Prod.mk.injEq] at hEq
      obtain ⟨hS, -, -⟩ := hEq
      subst hS
      refine ⟨rfl, ?_, ?_, ?_, ?_⟩ <;> simp only [] <;> omega

/-- Claim C5 witness: resizing to the current dimensions is a no-op on
concrete state. -/
theorem resize_noop_iff_same_dimensions_witness :
    renderer0.resize dev4 dims0 = (renderer0, dev4, .ok ()) :=
  (resize_noop_iff_same_dimensions renderer0 dev4 dims0 (by decide)).1.mpr (by decide)

/-- Claim C6: `resize` is atomic with respect to failure: if either
offscreen reallocation fails, the error is propagated and the renderer is
returned with every field unchanged, so no field refers to any id this call
allocated (all such ids are at least the device's next fresh id). -/
theorem resize_failure_atomic (s : GlowRenderer) (d : Device)
    (dims : Dimensions) (hf : GlowRenderer.Fresh d s) :
    ∀ s' d' e, s.resize d dims = (s', d', .error e) →
      s' = s ∧ ∀ n, d.nextId ≤ n →
        s'.glow_src_texture ≠ n ∧ s'.glow_src_view ≠ n ∧
        s'.glow_tmp_texture ≠ n ∧ s'.glow_tmp_view ≠ n := by
  obtain ⟨f1, f2, f3, f4⟩ := hf
  intro s' d' e hEq
  rw [resize_eq] at hEq
  simp only [] at hEq
  split_ifs at hEq
  all_goals try exact Except.noConfusion (congrArg (fun t => t.2.2) hEq)
  all_goals (
    simp only [Prod.mk.injEq] at hEq
    obtain ⟨h1, -, -⟩ := hEq
    subst h1
    exact ⟨rfl, fun n hn => ⟨by omega, by omega, by omega, by omega⟩⟩)

/-- Claim C6 witness: with the second reallocation failing on a concrete
device, `resize` leaves the renderer unchanged and the partially created
replacement (id 6) is referenced by no field. -/
theorem resize_failure_atomic_witness :
    (renderer0.resize devFail1 dims1).1 = renderer0 ∧
    (renderer0.resize devFail1 dims1).1.glow_src_texture ≠ 6 := by
  have h := resize_failure_atomic renderer0 devFail1 dims1 (by decide)
    ((renderer0.resize devFail1 dims1).1) ((renderer0.resize devFail1 dims1).2.1)
    GpuError.allocFailed rfl
  exact ⟨h.1, (h.2 6 (by decide)).1⟩

/-- Claim C7: construction is all-or-nothing: a successful `new` returns a
renderer with both offscreen surfaces allocated at the initial (truncated)
resolution, the linear sampler, all four pipelines (with their entry points)
and the quad geometry fully built; a failed `new` propagates the allocation
error and exposes no renderer. -/
theorem new_all_or_nothing (d : Device) (fmt : TextureFormat) (dims : Dimensions) :
    (∀ s d', GlowRenderer.new d fmt dims = .ok (s, d') →
        s.width = dims.pixel_width % 2 ^ 32
      ∧ s.height = dims.pixel_height % 2 ^ 32
      ∧ DeviceOp.createTexture s.glow_src_texture
          { label := some "Glow Source"
            size := { width := s.width, height := s.height, depth_or_array_layers := 1 }
            mip_level_count := 1
            sample_count := 1
            dimension := .D2
            format := .Rgba8UnormSrgb
            usage := { render_attachment := true, texture_binding := true
                       copy_src := false, copy_dst := false }
            view_formats := [] } ∈ d'.ops
      ∧ DeviceOp.createTexture s.glow_tmp_texture
          { label := some "Glow Temp"
            size := { width := s.width, height := s.height, depth_or_array_layers := 1 }
            mip_level_count := 1
            sample_count := 1
            dimension := .D2
            format := .Rgba8UnormSrgb
            usage := { render_attachment := true, texture_binding := true
                       copy_src := false, copy_dst := false }
            view_formats := [] } ∈ d'.ops
      ∧ s.linear_sampler =
          { address_mode_u := .ClampToEdge, address_mode_v := .ClampToEdge
            address_mode_w := .ClampToEdge, mag_filter := .Linear
            min_filter := .Linear, mipmap_filter := .Linear }
      ∧ s.extract_pipeline.vsEntryOf = some "vs_fullscreen"
      ∧ s.extract_pipeline.fsEntryOf = some "fs_extract"
      ∧ s.blur_h_pipeline.fsEntryOf = some "fs_blur_h"
      ∧ s.blur_v_pipeline.fsEntryOf = some "fs_blur_v"
      ∧ s.composite_pipeline.fsEntryOf = some "fs_composite"
      ∧ DeviceOp.createPipeline s.extract_pipeline ∈ d'.ops
      ∧ DeviceOp.createPipeline s.blur_h_pipeline ∈ d'.ops
      ∧ DeviceOp.createPipeline s.blur_v_pipeline ∈ d'.ops
      ∧ DeviceOp.createPipeline s.composite_pipeline ∈ d'.ops
      ∧ s.quad_vertex_buffer =
          { label := some "Glow Quad Vertex Buffer"
            contents := .vertexData
              [ { position := [-1, -1], tex := [0, 1], fg_color := [1, 1, 1, 1]
                  alt_color := [0, 0, 0, 0], hsv := [1, 1, 1], has_color := 0, mix_value := 0 }
              , { position := [1, -1], tex := [1, 1], fg_color := [1, 1, 1, 1]
                  alt_color := [0, 0, 0, 0], hsv := [1, 1, 1], has_color := 0, mix_value := 0 }
              , { position := [1, 1], tex := [1, 0], fg_color := [1, 1, 1, 1]
                  alt_color := [0, 0, 0, 0], hsv := [1, 1, 1], has_color := 0, mix_value := 0 }
              , { position := [-1, 1], tex := [0, 0], fg_color := [1, 1, 1, 1]
                  alt_color := [0, 0, 0, 0], hsv := [1, 1, 1], has_color := 0, mix_value := 0 } ]
            usage := BufferUsages.VERTEX }
      ∧ s.quad_index_buffer =
          { label := some "Glow Quad Index Buffer"
            contents := .indexData [0, 1, 2, 0, 2, 3]
            usage := BufferUsages.INDEX })
    ∧ (∀ e, GlowRenderer.new d fmt dims = .error e →
        e = .allocFailed ∧
        (d.failTexture d.nextId = true ∨ d.failTexture (d.nextId + 2) = true)) := by
  constructor
  · intro s d' h
    rw [new_eq] at h
    simp only [] at h
    split_ifs at h
    simp only [Except.ok.injEq, Prod.mk.injEq] at h
    obtain ⟨hs, hd⟩ := h
    subst hs
    subst hd
    refine ⟨rfl, rfl, by simp, by simp, rfl, rfl, rfl, rfl, rfl, rfl,
      by simp, by simp, by simp, by simp, rfl, rfl⟩
  · intro e h
    refine ⟨by cases e; rfl, ?_⟩
    by_contra hno
    push_neg at hno
    obtain ⟨h1, h2⟩ := hno
    rw [new_eq] at h
    simp only [] at h
    rw [if_neg h1, if_neg h2] at h
    exact Except.noConfusion h

/-- Claim C7 witness: a concrete successful construction exposes the fully
built sampler and the initial resolution. -/
theorem new_all_or_nothing_witness :
    (GlowRenderer.newRenderer dev0 .Rgba8UnormSrgb dims0).linear_sampler =
      { address_mode_u := .ClampToEdge, address_mode_v := .ClampToEdge
        address_mode_w := .ClampToEdge, mag_filter := .Linear
        min_filter := .Linear, mipmap_filter := .Linear } ∧
    (GlowRenderer.newRenderer dev0 .Rgba8UnormSrgb dims0).width =
      dims0.pixel_width % 2 ^ 32 := by
  have h := (new_all_or_nothing dev0 .Rgba8UnormSrgb dims0).1
    (GlowRenderer.newRenderer dev0 .Rgba8UnormSrgb dims0)
    (GlowRenderer.newDeviceAfter dev0 .Rgba8UnormSrgb dims0) rfl
  exact ⟨h.2.2.2.2.1, h.1⟩

/-- Claim C9: every offscreen texture created by the effect, at construction
and on every reallocating resize, has the fixed format Rgba8UnormSrgb,
render-attachment plus texture-binding usage, one mip level, one sample, 2D
dimension, one array layer, and width and height equal to the effect's
stored resolution after the call. -/
theorem offscreen_texture_descriptor_invariant :
    (∀ (d : Device) (fmt : TextureFormat) (dims : Dimensions) s d',
      GlowRenderer.new d fmt dims = .ok (s, d') →
      ∀ id desc, DeviceOp.createTexture id desc ∈ d'.ops.drop d.ops.length →
        desc.format = .Rgba8UnormSrgb ∧ desc.usage.render_attachment = true ∧
        desc.usage.texture_binding = true ∧ desc.mip_level_count = 1 ∧
        desc.sample_count = 1 ∧ desc.dimension = .D2 ∧
        desc.size.depth_or_array_layers = 1 ∧
        desc.size.width = s.width ∧ desc.size.height = s.height)
    ∧ (∀ (s : GlowRenderer) (d : Device) (dims : Dimensions) s' d',
        s.resize d dims = (s', d', .ok ()) →
        ∀ id desc, DeviceOp.createTexture id desc ∈ d'.ops.drop d.ops.length →
          desc.format = .Rgba8UnormSrgb ∧ desc.usage.render_attachment = true ∧
          desc.usage.texture_binding = true ∧ desc.mip_level_count = 1 ∧
          desc.sample_count = 1 ∧ desc.dimension = .D2 ∧
          desc.size.depth_or_array_layers = 1 ∧
          desc.size.width = s'.width ∧ desc.size.height = s'.height) := by
  constructor
  · intro d fmt dims s d' h id desc hmem
    rw [new_eq] at h
    simp only [] at h
    split_ifs at h
    simp only [Except.ok.injEq, Prod.mk.injEq] at h
    obtain ⟨hs, hd⟩ := h
    subst hs
    subst hd
    simp only [List.drop_left] at hmem
    simp at hmem
    rcases hmem with ⟨-, rfl⟩ | ⟨-, rfl⟩ <;>
      exact ⟨rfl, rfl, rfl, rfl, rfl, rfl, rfl, rfl, rfl⟩
  · intro s d dims s' d' h id desc hmem
    rw [resize_eq] at h
    simp only [] at h
    split_ifs at h
    all_goals try exact Except.noConfusion (congrArg (fun t => t.2.2) h)
    all_goals (
      simp only [Prod.mk.injEq] at h
      obtain ⟨hS, hD, -⟩ := h
      first
        | (subst hS
           subst hD
           simp only [List.drop_left] at hmem
           simp at hmem
           rcases hmem with ⟨-, rfl⟩ | ⟨-, rfl⟩ <;>
             exact ⟨rfl, rfl, rfl, rfl, rfl, rfl, rfl, rfl, rfl⟩)
        | (subst hD
           rw [List.drop_length] at hmem
           exact absurd hmem (List.not_mem_nil _)))

/-- Claim C9 witness: the concrete construction's first offscreen texture
descriptor has the stored resolution as its width. -/
theorem offscreen_texture_descriptor_invariant_witness :
    ({ label := some "Glow Source"
       size := { width := 800, height := 600, depth_or_array_layers := 1 }
       mip_level_count := 1
       sample_count := 1
       dimension := .D2
       format := .Rgba8UnormSrgb
       usage := { render_attachment := true, texture_binding := true
                  copy_src := false, copy_dst := false }
       view_formats := [] } : TextureDescriptor).size.width =
      (GlowRenderer.newRenderer dev0 .Rgba8UnormSrgb dims0).width := by
  have h := offscreen_texture_descriptor_invariant.1 dev0 .Rgba8UnormSrgb dims0
    (GlowRenderer.newRenderer dev0 .Rgba8UnormSrgb dims0)
    (GlowRenderer.newDeviceAfter dev0 .Rgba8UnormSrgb dims0) rfl 0
    { label := some "Glow Source"
      size := { width := 800, height := 600, depth_or_array_layers := 1 }
      mip_level_count := 1
      sample_count := 1
      dimension := .D2
      format := .Rgba8UnormSrgb
      usage := { render_attachment := true, texture_binding := true
                 copy_src := false, copy_dst := false }
      view_formats := [] } (by decide)
  exact h.2.2.2.2.2.2.2.1

/-- Claim C10: all four pipelines are built with the caller-supplied surface
format as their single colour-target format, every offscreen texture is
created with the fixed format Rgba8UnormSrgb, and consequently the
extract/blur pipelines' target format equals the offscreen attachment format
exactly when the surface format is Rgba8UnormSrgb. -/
theorem pipeline_format_vs_offscreen_format (d : Device) (fmt : TextureFormat)
    (dims : Dimensions) (s : GlowRenderer) (d' : Device)
    (h : GlowRenderer.new d fmt dims = .ok (s, d')) :
    s.extract_pipeline.targetFormat = some fmt
    ∧ s.blur_h_pipeline.targetFormat = some fmt
    ∧ s.blur_v_pipeline.targetFormat = some fmt
    ∧ s.composite_pipeline.targetFormat = some fmt
    ∧ (∀ id desc, DeviceOp.createTexture id desc ∈ d'.ops.drop d.ops.length →
        desc.format = .Rgba8UnormSrgb
        ∧ (s.extract_pipeline.targetFormat = some desc.format ↔ fmt = .Rgba8UnormSrgb)
        ∧ (s.blur_h_pipeline.targetFormat = some desc.format ↔ fmt = .Rgba8UnormSrgb)
        ∧ (s.blur_v_pipeline.targetFormat = some desc.format ↔ fmt = .Rgba8UnormSrgb)) := by
  rw [new_eq] at h
  simp only [] at h
  split_ifs at h
  simp only [Except.ok.injEq, Prod.mk.injEq] at h
  obtain ⟨hs, hd⟩ := h
  subst hs
  subst hd
  refine ⟨rfl, rfl, rfl, rfl, ?_⟩
  intro id desc hmem
  simp only [List.drop_left] at hmem
  simp at hmem
  rcases hmem with ⟨-, rfl⟩ | ⟨-, rfl⟩ <;>
    exact ⟨rfl,
      by simp [RenderPipelineDescriptor.targetFormat],
      by simp [RenderPipelineDescriptor.targetFormat],
      by simp [RenderPipelineDescriptor.targetFormat]⟩

/-- Claim C10 witness: with a non-Rgba8UnormSrgb surface format the pipelines
target that caller format. -/
theorem pipeline_format_vs_offscreen_format_witness :
    (GlowRenderer.newRenderer dev0 .Bgra8Unorm dims0).extract_pipeline.targetFormat =
      some TextureFormat.Bgra8Unorm :=
  (pipeline_format_vs_offscreen_format dev0 .Bgra8Unorm dims0
    (GlowRenderer.newRenderer dev0 .Bgra8Unorm dims0)
    (GlowRenderer.newDeviceAfter dev0 .Bgra8Unorm dims0) rfl).1

end WezGlow
